import Mathlib

/-!
# Verification of the c-string-obfuscator header (`src/obfuscator.h`)

Shallow embedding of the compile-time string obfuscator in `obfuscator.h`.
Machine integers are modelled as `Nat` with explicit reduction modulo `2^64`
where 64-bit overflow matters; code units (`char` / `wchar_t`) are modelled
as `Nat`, since every operation on them is a bitwise XOR, which `Nat.xor`
models faithfully on the value range of either character type.
Buffers are `List Nat`; the mutable `XorStringBase<CharT, N, Seed>` object
becomes a structure carrying its seed, its buffer and the `decrypted` flag,
with the member functions as explicit state transformers.
-/

namespace Obff

/-- The modulus of `uint64_t` arithmetic, `2^64`. -/
def U64 : Nat := 2 ^ 64

/-- Model of `mix_seed` (obfuscator.h lines 14-21): splitmix64-style finalizer.
`z ^= z >> 30; z *= 0xbf58476d1ce4e5b9; z ^= z >> 27; z *= 0x94d049bb133111eb; z ^= z >> 31`. -/
def mix_seed (z : Nat) : Nat :=
  let z1 := z ^^^ (z >>> 30)
  let z2 := (z1 * 0xbf58476d1ce4e5b9) % U64
  let z3 := z2 ^^^ (z2 >>> 27)
  let z4 := (z3 * 0x94d049bb133111eb) % U64
  z4 ^^^ (z4 >>> 31)

/-- One iteration of the loop body in `make_rolling_key` (lines 36-41):
`z ^= z >> 13; z *= 0xff51afd7ed558ccd; z ^= z >> 33`. -/
def rollStep (z : Nat) : Nat :=
  let a := z ^^^ (z >>> 13)
  let b := (a * 0xff51afd7ed558ccd) % U64
  b ^^^ (b >>> 33)

/-- The successive bytes `key[i] = static_cast<uint8_t>(z)` emitted by the
loop of `make_rolling_key`, starting from state `z`, for `n` iterations. -/
def keyBytes : Nat → Nat → List Nat
  | 0, _ => []
  | n + 1, z =>
    let z' := rollStep z
    (z' % 256) :: keyBytes n z'

/-- Model of `make_rolling_key<16>(seed)` (lines 31-43): 16 pseudorandom bytes derived
from the seed.  The `size_t` seed is converted to `uint64_t` on entry, hence
the `% U64`. -/
def make_rolling_key (seed : Nat) : List Nat :=
  keyBytes 16 (mix_seed (seed % U64))

/-- The key length `KeyLen = 16` (line 50). -/
def KeyLen : Nat := 16

/-- The XOR loop shared by the constructor (lines 57-61) and `decrypt`
(lines 70-73): position `i` of the buffer is XORed with
`key_stream[i % KeyLen]`.  `i` is the index of the head element. -/
def xorStream (key : List Nat) : Nat → List Nat → List Nat
  | _, [] => []
  | i, c :: cs => (c ^^^ key.getD (i % KeyLen) 0) :: xorStream key (i + 1) cs

/-- State of one `XorStringBase<CharT, N, Seed>` instance (lines 48-90):
the template parameter `Seed`, the `data` buffer and the `decrypted` flag. -/
structure XorStringBase where
  seed : Nat
  data : List Nat
  decrypted : Bool
  deriving Repr, DecidableEq

/-- The static member `key_stream = make_rolling_key<KeyLen>(Seed)` (line 55). -/
def XorStringBase.key_stream (s : XorStringBase) : List Nat :=
  make_rolling_key s.seed

/-- The constructor `XorStringBase(const CharT (&input)[N])` (lines 57-61):
`data[i] = input[i] ^ static_cast<CharT>(key_stream[i % KeyLen])`, with the
`decrypted` flag left at its initializer `false` (line 53). -/
def mkXorString (seed : Nat) (input : List Nat) : XorStringBase :=
  { seed := seed
    data := xorStream (make_rolling_key seed) 0 input
    decrypted := false }

/-- Model of `decrypt()` (lines 63-78): if not yet decrypted, XOR every unit against
`key_stream[idx % KeyLen]` in place and set the flag; always return the
buffer (`data.data()`).  Modelled as returning the new state together with
the buffer the returned pointer refers to. -/
def XorStringBase.decrypt (s : XorStringBase) : XorStringBase × List Nat :=
  if s.decrypted then (s, s.data)
  else
    let d := xorStream s.key_stream 0 s.data
    ({ s with data := d, decrypted := true }, d)

/-- Model of `zeroize()` (lines 80-87): `std::fill(data.begin(), data.end(), CharT\x7b0\x7d)`
overwrites every unit with zero; the volatile pointer and the asm barrier have
no effect on the abstract buffer contents.  The `decrypted` flag is not
touched. -/
def XorStringBase.zeroize (s : XorStringBase) : XorStringBase :=
  { s with data := s.data.map (fun _ => 0) }

/-- The code units of the literal `"Hello"` including the terminator
(`N = 6`). -/
def helloLit : List Nat := [72, 101, 108, 108, 111, 0]

/-- Model of the `AutoDecryptZero` constructor (lines 114-116): decrypt the
bound instance on acquisition.  Returns the new instance state and the buffer
`get()` refers to. -/
def autoAcquire (s : XorStringBase) : XorStringBase × List Nat :=
  s.decrypt

/-- Model of the `AutoDecryptZero` destructor (lines 118-120): zeroize the
bound instance on release. -/
def autoRelease (s : XorStringBase) : XorStringBase :=
  s.zeroize

/-- State of the static `xs` instance after the first call of the `OBF_AUTO`
lambda (lines 139-143): `xs` is constructed from the literal, then the
constructor of the guard `az` decrypts it.  Because `az` is itself declared
`static`, it has static storage duration and its destructor (the zeroize)
runs only at program termination, not when the caller's enclosing scope
exits; this is therefore still the buffer state after the enclosing scope
has exited. -/
def obfAutoStateAfterScopeExit (seed : Nat) (input : List Nat) : XorStringBase :=
  (autoAcquire (mkXorString seed input)).1

/-- The default seed of `XorString<N>` (line 95: `std::size_t Seed = __LINE__`)
as a function of the macro call site's line number.  `__LINE__` is expanded by
the preprocessor where the default template argument is written — line 95 of
obfuscator.h — not where the template is instantiated, so every call site that
does not pass an explicit seed (in particular every `OBF` / `OBF_AUTO`
expansion, which pass none) gets the same constant seed 95. -/
def xorStringDefaultSeed (_callSiteLine : Nat) : Nat := 95

/-- Bounds-checked version of `xorStream`: the key-stream access
`key_stream[i % KeyLen]` returns `none` instead of the out-of-bounds value.
Used to state that no access of the XOR loops is out of bounds. -/
def xorStreamChecked (key : List Nat) : Nat → List Nat → Option (List Nat)
  | _, [] => some []
  | i, c :: cs =>
    match key.get? (i % KeyLen), xorStreamChecked key (i + 1) cs with
    | some k, some rest => some ((c ^^^ k) :: rest)
    | _, _ => none

/-- Bounds-checked version of the constructor. -/
def mkXorStringChecked (seed : Nat) (input : List Nat) : Option XorStringBase :=
  (xorStreamChecked (make_rolling_key seed) 0 input).map
    (fun d => { seed := seed, data := d, decrypted := false })

/-- Bounds-checked version of `decrypt`. -/
def XorStringBase.decryptChecked (s : XorStringBase) :
    Option (XorStringBase × List Nat) :=
  if s.decrypted then some (s, s.data)
  else
    (xorStreamChecked s.key_stream 0 s.data).map
      (fun d => ({ s with data := d, decrypted := true }, d))

/-! ## Helper lemmas -/

/-- XOR with the same value twice is the identity. -/
theorem xor_xor_cancel (c k : Nat) : (c ^^^ k) ^^^ k = c := by
  rw [Nat.xor_assoc, Nat.xor_self, Nat.xor_zero]

/-- Applying the XOR loop twice with the same key and start index restores
the original buffer. -/
theorem xorStream_xorStream (key : List Nat) (i : Nat) (l : List Nat) :
    xorStream key i (xorStream key i l) = l := by
  induction l generalizing i with
  | nil => rfl
  | cons c cs ih => simp [xorStream, xor_xor_cancel, ih]

/-- The XOR loop preserves the buffer length. -/
theorem xorStream_length (key : List Nat) (i : Nat) (l : List Nat) :
    (xorStream key i l).length = l.length := by
  induction l generalizing i with
  | nil => rfl
  | cons c cs ih => simp [xorStream, ih]

/-- Elementwise description of the XOR loop. -/
theorem xorStream_get? (key : List Nat) (i j : Nat) (l : List Nat) :
    (xorStream key i l).get? j
      = (l.get? j).map (fun c => c ^^^ key.getD ((i + j) % KeyLen) 0) := by
  induction l generalizing i j with
  | nil => simp [xorStream]
  | cons c cs ih =>
    cases j with
    | zero => simp [xorStream]
    | succ jj =>
      have h : i + 1 + jj = i + (jj + 1) := by omega
      simp only [xorStream, List.get?_cons_succ]
      rw [ih (i + 1) jj, h]

/-- The key-byte emitter yields exactly `n` bytes. -/
theorem keyBytes_length (n z : Nat) : (keyBytes n z).length = n := by
  induction n generalizing z with
  | zero => rfl
  | succ m ih => simp [keyBytes, ih]

/-- The rolling key stream always has `KeyLen = 16` bytes. -/
theorem make_rolling_key_length (seed : Nat) :
    (make_rolling_key seed).length = KeyLen := by
  simp [make_rolling_key, keyBytes_length, KeyLen]

/-- In-bounds `get?` succeeds with the `getD` value. -/
theorem get?_eq_some_getD (l : List Nat) (i : Nat) (h : i < l.length) :
    l.get? i = some (l.getD i 0) := by
  induction l generalizing i with
  | nil => simp at h
  | cons c cs ih =>
    cases i with
    | zero => rfl
    | succ j => simpa using ih j (by simpa using h)

/-- Mapping every element to zero yields the all-zero list of the same
length. -/
theorem map_const_zero (l : List Nat) :
    l.map (fun _ => (0 : Nat)) = List.replicate l.length 0 := by
  induction l with
  | nil => rfl
  | cons c cs ih => simp [ih, List.replicate]

/-- After any `decrypt` call the flag is set. -/
theorem decrypt_fst_decrypted (s : XorStringBase) :
    ((s.decrypt).1).decrypted = true := by
  by_cases h : s.decrypted = true
  · simp [XorStringBase.decrypt, h]
  · simp [XorStringBase.decrypt, h]

/-- Decrypting a freshly constructed instance returns the original input. -/
theorem decrypt_mkXorString_snd (S : Nat) (L : List Nat) :
    ((mkXorString S L).decrypt).2 = L := by
  simp [mkXorString, XorStringBase.decrypt, XorStringBase.key_stream,
    xorStream_xorStream]

/-- With a full-length key the checked XOR loop never fails and agrees with
the total one. -/
theorem xorStreamChecked_eq (key : List Nat) (hk : key.length = KeyLen)
    (i : Nat) (l : List Nat) :
    xorStreamChecked key i l = some (xorStream key i l) := by
  induction l generalizing i with
  | nil => rfl
  | cons c cs ih =>
    have hlt : i % KeyLen < key.length := by
      rw [hk]; exact Nat.mod_lt _ (by decide)
    simp only [xorStreamChecked, xorStream]
    rw [get?_eq_some_getD key _ hlt, ih]

/-- The key stream of any instance has `KeyLen` bytes. -/
theorem key_stream_length (s : XorStringBase) :
    s.key_stream.length = KeyLen :=
  make_rolling_key_length s.seed

/-- A `decrypt` call on an instance with the flag set does nothing and
returns the buffer. -/
theorem decrypt_of_flag (s : XorStringBase) (h : s.decrypted = true) :
    s.decrypt = (s, s.data) := by
  simp [XorStringBase.decrypt, h]

/-- A `decrypt` call preserves the buffer length. -/
theorem decrypt_fst_data_length (s : XorStringBase) :
    ((s.decrypt).1).data.length = s.data.length := by
  by_cases h : s.decrypted = true
  · simp [XorStringBase.decrypt, h]
  · simp [XorStringBase.decrypt, h, xorStream_length]

/-! ## Claim theorems -/

/-- C1: constructing the XOR-encoded buffer from any literal `L` of `N` code
units (terminator included) with any seed `S` and then calling `decrypt` once
yields a buffer whose `N` units equal `L` exactly; in particular the literal
`"Hello"` (`N = 6`, terminator included) with seed 12345 is recovered
exactly as `"Hello\0"`. -/
theorem C1_decrypt_encode_roundtrip :
    (∀ (S : Nat) (L : List Nat), ((mkXorString S L).decrypt).2 = L) ∧
    ((mkXorString 12345 helloLit).decrypt).2 = helloLit :=
  ⟨decrypt_mkXorString_snd, decrypt_mkXorString_snd 12345 helloLit⟩

/-- C2: on an instance whose `DecryptedFlag` is already `true`, a further
`decrypt` call performs no mutation — the state is unchanged and the returned
pointer refers to the same, identical buffer. -/
theorem C2_decrypt_idempotent (s : XorStringBase) (h : s.decrypted = true) :
    s.decrypt = (s, s.data) :=
  decrypt_of_flag s h

/-- Witness for C2 on a concrete already-decrypted instance. -/
theorem C2_decrypt_idempotent_witness :
    (XorStringBase.mk 7 [1, 2, 3] true).decrypt
      = (XorStringBase.mk 7 [1, 2, 3] true, [1, 2, 3]) :=
  C2_decrypt_idempotent (XorStringBase.mk 7 [1, 2, 3] true) rfl

/-- C3: after `zeroize`, the buffer is the all-zero list of its original
length `N`, whatever mixture of ciphertext or plaintext it held before. -/
theorem C3_zeroize_all_zero (s : XorStringBase) :
    (s.zeroize).data = List.replicate s.data.length 0 :=
  map_const_zero s.data

/-- C4 (code-bug evaluation): after the first call of the `OBF_AUTO` lambda
the guard `az` is `static`, so its zeroizing destructor does not run when the
enclosing scope exits; the buffer still holds the decrypted literal
`"A\0" = [65, 0]` after scope exit and is not all-zero. -/
theorem C4_obfAuto_not_zero_after_scope_exit :
    (obfAutoStateAfterScopeExit 95 [65, 0]).data = [65, 0] ∧
    (obfAutoStateAfterScopeExit 95 [65, 0]).data ≠ List.replicate 2 0 :=
  ⟨rfl, by decide⟩

/-- C5 (code-bug evaluation): two macro call sites at different source lines
(here 10 and 20) receive the same default seed 95, because `__LINE__` in the
default template argument expands at the template declaration line of the
header, and the resulting instances for a common literal are identical. -/
theorem C5_distinct_sites_share_default_seed :
    xorStringDefaultSeed 10 = xorStringDefaultSeed 20 ∧
    ∀ L, mkXorString (xorStringDefaultSeed 10) L
           = mkXorString (xorStringDefaultSeed 20) L :=
  ⟨rfl, fun _ => rfl⟩

/-- C6 (counterexample): the claim as stated is false — for seed 285741 the
key bytes at indices 0 and 1 are zero while the key byte at index 2 is
72 ≠ 0, so the non-empty literal `"A\0" = [65, 0]` encodes to itself even
though at least one key byte is non-zero. -/
theorem C6_counterexample :
    ¬ (∀ (S : Nat) (L : List Nat), L ≠ [] →
        (∃ i, i < KeyLen ∧ (make_rolling_key S).getD i 0 ≠ 0) →
        (mkXorString S L).data ≠ L) := fun h =>
  h 285741 [65, 0] (by decide) ⟨2, by decide, by decide⟩ rfl

/-- C6 (amended): if some key byte actually used by the encoding — the byte
at index `i % KeyLen` for some position `i < N` — is non-zero, then the
encoded buffer differs from the literal. -/
theorem C6_encode_ne_literal (S : Nat) (L : List Nat)
    (h : ∃ i, i < L.length ∧ (make_rolling_key S).getD (i % KeyLen) 0 ≠ 0) :
    (mkXorString S L).data ≠ L := by
  obtain ⟨i, hi, hk⟩ := h
  intro heq
  apply hk
  have hdata : xorStream (make_rolling_key S) 0 L = L := heq
  have h1 := xorStream_get? (make_rolling_key S) 0 i L
  rw [hdata, get?_eq_some_getD L i hi] at h1
  simp only [Nat.zero_add, Option.map_some'] at h1
  have h2 : L.getD i 0
      = L.getD i 0 ^^^ (make_rolling_key S).getD (i % KeyLen) 0 :=
    Option.some.inj h1
  have h3 : L.getD i 0 ^^^ L.getD i 0
      = L.getD i 0 ^^^ (L.getD i 0 ^^^ (make_rolling_key S).getD (i % KeyLen) 0) :=
    congrArg _ h2
  rw [Nat.xor_self, ← Nat.xor_assoc, Nat.xor_self, Nat.zero_xor] at h3
  exact h3.symm

/-- Witness for the amended C6 at seed 12345 and literal `"Hello\0"`. -/
theorem C6_encode_ne_literal_witness :
    (mkXorString 12345 helloLit).data ≠ helloLit :=
  C6_encode_ne_literal 12345 helloLit ⟨0, by decide, by decide⟩

/-- C7: the key stream is a function of the seed alone — two distinct
literals encoded under the same explicit seed carry the identical 16-byte
key stream `make_rolling_key S`, and each independently round-trips per its
own length. -/
theorem C7_key_stream_seed_determined (S : Nat) (L1 L2 : List Nat)
    (_h : L1 ≠ L2) :
    (mkXorString S L1).key_stream = (mkXorString S L2).key_stream ∧
    (mkXorString S L1).key_stream = make_rolling_key S ∧
    (make_rolling_key S).length = 16 ∧
    ((mkXorString S L1).decrypt).2 = L1 ∧
    ((mkXorString S L2).decrypt).2 = L2 :=
  ⟨rfl, rfl, make_rolling_key_length S,
    decrypt_mkXorString_snd S L1, decrypt_mkXorString_snd S L2⟩

/-- Witness for C7 on two concrete distinct literals under seed 5. -/
theorem C7_key_stream_seed_determined_witness :
    (mkXorString 5 [1, 0]).key_stream = (mkXorString 5 [2, 0]).key_stream ∧
    (mkXorString 5 [1, 0]).key_stream = make_rolling_key 5 ∧
    (make_rolling_key 5).length = 16 ∧
    ((mkXorString 5 [1, 0]).decrypt).2 = [1, 0] ∧
    ((mkXorString 5 [2, 0]).decrypt).2 = [2, 0] :=
  C7_key_stream_seed_determined 5 [1, 0] [2, 0] (by decide)

/-- C8: construction, decrypt and zeroize are total — the bounds-checked
versions of the constructor and of decrypt never fail and agree with the
total ones (every key-stream access `i % KeyLen` lands inside the 16-byte
key, every buffer access inside `N`), and zeroize writes exactly the `N`
existing slots. -/
theorem C8_ops_total (S : Nat) (L : List Nat) (s : XorStringBase) :
    mkXorStringChecked S L = some (mkXorString S L) ∧
    s.decryptChecked = some s.decrypt ∧
    (s.zeroize).data.length = s.data.length := by
  refine ⟨?_, ?_, ?_⟩
  · simp [mkXorStringChecked, mkXorString,
      xorStreamChecked_eq _ (make_rolling_key_length S)]
  · by_cases h : s.decrypted = true
    · simp [XorStringBase.decryptChecked, XorStringBase.decrypt, h]
    · simp [XorStringBase.decryptChecked, XorStringBase.decrypt, h,
        xorStreamChecked_eq _ (key_stream_length s)]
  · simp [XorStringBase.zeroize]

/-- C10: `zeroize` modifies only the buffer contents, leaving the seed and
the `DecryptedFlag` unchanged; consequently, decrypting after a decrypt
followed by a zeroize writes nothing and returns the still-all-zero
buffer. -/
theorem C10_zeroize_frame (s : XorStringBase) :
    (s.zeroize).decrypted = s.decrypted ∧
    (s.zeroize).seed = s.seed ∧
    ((s.decrypt).1.zeroize).decrypt
      = ((s.decrypt).1.zeroize, ((s.decrypt).1.zeroize).data) ∧
    ((s.decrypt).1.zeroize).data = List.replicate s.data.length 0 := by
  refine ⟨rfl, rfl, ?_, ?_⟩
  · exact decrypt_of_flag ((s.decrypt).1.zeroize) (decrypt_fst_decrypted s)
  · show ((s.decrypt).1).data.map (fun _ => 0) = _
    rw [map_const_zero, decrypt_fst_data_length]

end Obff
